import Mathlib

set_option maxHeartbeats 1000000

/-!
Shallow embedding of `src/client.rs` of `graphql-cli-tools`.

The client executes one GraphQL operation. `execute` inspects the endpoint
scheme and dispatches to `http_request` or `ws_request`; each of those wraps
one `try_*` attempt in a retry loop governed by `try_reconnect_duration`.
Network effects are modelled by explicit "scripts" describing what the
transport layer would yield (connect results, inbound frames, response
bodies), `Uuid::new_v4` by an injective generator threaded as a counter, and
`println!` logging by an explicit event trace.
-/

namespace GraphqlCliTools

/-- JSON values, modelling `serde_json::Value` (numbers simplified to `Int`,
which suffices for every claim here). Objects are ordered field lists, the
order being the order in which the keys occur on the wire. -/
inductive Json where
  | null : Json
  | bool (b : Bool) : Json
  | num (n : Int) : Json
  | str (s : String) : Json
  | arr (xs : List Json) : Json
  | obj (fields : List (String × Json)) : Json
  deriving Repr

/-- Model of Rust `str::starts_with` as used in `execute`
(`server_endpoint.as_ref().starts_with("http://")` etc.): prefix test on the
character sequence. -/
def starts_with (s pre : String) : Bool :=
  pre.data.isPrefixOf s.data

/-- Error values of the client, modelling the `Box<dyn std::error::Error>`
values that can flow out of an attempt:
`error::InvalidServerEndpointScheme`, `error::WsConnectionInitError`,
transport-level errors (reqwest/tungstenite), serde parse errors, and errors
returned by the caller's `response_processor`. -/
inductive Err where
  | invalidServerEndpointScheme : Err
  | wsConnectionInitError : Err
  | transport (e : String) : Err
  | parse (e : String) : Err
  | sink (e : String) : Err
  deriving DecidableEq, Repr

/-- `GraphQlResponse` from `client.rs`: `data: Option<serde_json::Value>`,
`extensions: BTreeMap<String, Value>` with
`#[serde(default, skip_serializing_if = "BTreeMap::is_empty")]`, and
`errors: Vec<serde_json::Map<String, Value>>` with the same attributes.
The two map types are `BTreeMap`s, modelled as key-sorted association
lists. -/
structure GraphQlResponse where
  data : Option Json
  extensions : List (String × Json)
  errors : List (List (String × Json))
  deriving Repr

/-- `WsResponse` from `client.rs`: the `graphql-transport-ws` envelope
`{ type, id, payload }` with `payload: Option<GraphQlResponse>`. -/
structure WsResponse where
  type : String
  id : String
  payload : Option GraphQlResponse
  deriving Repr

/-- Insertion into a `BTreeMap<String, _>` modelled as a key-sorted
association list: keeps keys strictly increasing, replacing the value on an
existing key. -/
def btreeInsert (k : String) (v : Json) : List (String × Json) → List (String × Json)
  | [] => [(k, v)]
  | (k', v') :: rest =>
    if k < k' then (k, v) :: (k', v') :: rest
    else if k = k' then (k, v) :: rest
    else (k', v') :: btreeInsert k v rest

/-- Building a `BTreeMap<String, Value>` from the fields of a JSON object in
wire order, as serde's map deserializer does (later duplicates win). -/
def jsonToMap (fields : List (String × Json)) : List (String × Json) :=
  fields.foldl (fun acc kv => btreeInsert kv.1 kv.2 acc) []

/-- Serialization of an `Option<serde_json::Value>` field value: `None`
serializes as JSON `null`, `Some(v)` as `v` itself. -/
def serializeOptionValue : Option Json → Json
  | none => Json.null
  | some v => v

/-- Deserialization of an `Option<serde_json::Value>` value: JSON `null`
yields `None`, anything else `Some` of the value. -/
def optionValue : Json → Option Json
  | Json.null => none
  | v => some v

/-- Serde serialization of `GraphQlResponse` (derived `Serialize`): fields in
declaration order; `extensions` and `errors` are omitted entirely when empty
because of `skip_serializing_if = "..is_empty"`. -/
def serialize_GraphQlResponse (r : GraphQlResponse) : Json :=
  Json.obj
    ([("data", serializeOptionValue r.data)]
      ++ (if r.extensions.isEmpty then [] else [("extensions", Json.obj r.extensions)])
      ++ (if r.errors.isEmpty then [] else [("errors", Json.arr (r.errors.map Json.obj))]))

/-- Deserializing one element of `errors` (a `serde_json::Map<String, Value>`):
must be a JSON object, collected into a `BTreeMap`. -/
def deserialize_errors_elem : Json → Except Err (List (String × Json))
  | Json.obj fields => Except.ok (jsonToMap fields)
  | _ => Except.error (Err.parse "invalid type: expected a map")

/-- Deserializing the `errors` array elementwise. -/
def deserialize_errors_list : List Json → Except Err (List (List (String × Json)))
  | [] => Except.ok []
  | j :: rest =>
    match deserialize_errors_elem j with
    | Except.error e => Except.error e
    | Except.ok m =>
      match deserialize_errors_list rest with
      | Except.error e => Except.error e
      | Except.ok ms => Except.ok (m :: ms)

/-- Deserializing the `errors` field value: must be a JSON array of objects. -/
def deserialize_errors : Json → Except Err (List (List (String × Json)))
  | Json.arr xs => deserialize_errors_list xs
  | _ => Except.error (Err.parse "invalid type: expected a sequence")

/-- Deserializing the `extensions` field value: must be a JSON object. -/
def deserialize_extensions : Json → Except Err (List (String × Json))
  | Json.obj fields => Except.ok (jsonToMap fields)
  | _ => Except.error (Err.parse "invalid type: expected a map")

/-- Field loop of the derived `Deserialize` for `GraphQlResponse`: walks the
object's fields in wire order, filling one slot per known field (duplicate
known fields are an error, unknown fields are ignored), then applies the
serde defaults: a missing `data` (an `Option` field) is `None`, and missing
`extensions`/`errors` are empty thanks to `#[serde(default)]`. -/
def graphQlResponse_fields : List (String × Json) → Option (Option Json) →
    Option (List (String × Json)) → Option (List (List (String × Json))) →
    Except Err GraphQlResponse
  | [], dataSlot, extSlot, errSlot =>
    Except.ok ⟨dataSlot.getD none, extSlot.getD [], errSlot.getD []⟩
  | (k, v) :: rest, dataSlot, extSlot, errSlot =>
    if k = "data" then
      match dataSlot with
      | some _ => Except.error (Err.parse "duplicate field data")
      | none => graphQlResponse_fields rest (some (optionValue v)) extSlot errSlot
    else if k = "extensions" then
      match extSlot with
      | some _ => Except.error (Err.parse "duplicate field extensions")
      | none =>
        match deserialize_extensions v with
        | Except.error e => Except.error e
        | Except.ok m => graphQlResponse_fields rest dataSlot (some m) errSlot
    else if k = "errors" then
      match errSlot with
      | some _ => Except.error (Err.parse "duplicate field errors")
      | none =>
        match deserialize_errors v with
        | Except.error e => Except.error e
        | Except.ok m => graphQlResponse_fields rest dataSlot extSlot (some m)
    else graphQlResponse_fields rest dataSlot extSlot errSlot

/-- Serde deserialization of `GraphQlResponse` (derived `Deserialize`). -/
def deserialize_GraphQlResponse : Json → Except Err GraphQlResponse
  | Json.obj fields => graphQlResponse_fields fields none none none
  | _ => Except.error (Err.parse "invalid type: expected struct GraphQlResponse")

/-- Deserializing a `String`-typed field value. -/
def getString : Json → Except Err String
  | Json.str s => Except.ok s
  | _ => Except.error (Err.parse "invalid type: expected a string")

/-- Deserializing the `payload: Option<GraphQlResponse>` field value: `null`
is `None`, anything else must deserialize as a `GraphQlResponse`. -/
def deserialize_payload : Json → Except Err (Option GraphQlResponse)
  | Json.null => Except.ok none
  | v =>
    match deserialize_GraphQlResponse v with
    | Except.error e => Except.error e
    | Except.ok r => Except.ok (some r)

/-- Field loop of the derived `Deserialize` for `WsResponse`: `type` and `id`
are required `String` fields, `payload` is an `Option` field defaulting to
`None` when missing. -/
def wsResponse_fields : List (String × Json) → Option String → Option String →
    Option (Option GraphQlResponse) → Except Err WsResponse
  | [], typeSlot, idSlot, payloadSlot =>
    match typeSlot with
    | none => Except.error (Err.parse "missing field type")
    | some t =>
      match idSlot with
      | none => Except.error (Err.parse "missing field id")
      | some i => Except.ok ⟨t, i, payloadSlot.getD none⟩
  | (k, v) :: rest, typeSlot, idSlot, payloadSlot =>
    if k = "type" then
      match typeSlot with
      | some _ => Except.error (Err.parse "duplicate field type")
      | none =>
        match getString v with
        | Except.error e => Except.error e
        | Except.ok t => wsResponse_fields rest (some t) idSlot payloadSlot
    else if k = "id" then
      match idSlot with
      | some _ => Except.error (Err.parse "duplicate field id")
      | none =>
        match getString v with
        | Except.error e => Except.error e
        | Except.ok i => wsResponse_fields rest typeSlot (some i) payloadSlot
    else if k = "payload" then
      match payloadSlot with
      | some _ => Except.error (Err.parse "duplicate field payload")
      | none =>
        match deserialize_payload v with
        | Except.error e => Except.error e
        | Except.ok p => wsResponse_fields rest typeSlot idSlot (some p)
    else wsResponse_fields rest typeSlot idSlot payloadSlot

/-- Serde deserialization of `WsResponse` (derived `Deserialize`), i.e.
`serde_json::from_str::<WsResponse>` applied to already-lexed JSON. -/
def deserialize_WsResponse : Json → Except Err WsResponse
  | Json.obj fields => wsResponse_fields fields none none none
  | _ => Except.error (Err.parse "invalid type: expected struct WsResponse")

/-- Names of the top-level keys of a JSON value (empty for non-objects);
used to state which keys serialized bytes do or do not contain. -/
def jsonKeys : Json → List String
  | Json.obj fields => fields.map Prod.fst
  | _ => []

/-- One outcome of `ws_stream.next()` inside the streaming `while let` loop:
a transport-level receive error (`Err(e)`), a frame that `into_text` cannot
turn into text, a text frame whose contents are not valid JSON (so
`serde_json::from_str` fails before any shape check), or a text frame
containing the JSON value `j`. -/
inductive WsInbound where
  | recvError (e : String) : WsInbound
  | nonText : WsInbound
  | invalidJson : WsInbound
  | text (j : Json) : WsInbound
  deriving Repr

/-- One `println!` of the client, as an event trace entry:
the debug print of the server's upgrade response after `connect_async`, the
literal "Invalid message received from websocket" line, the pretty-printed
envelope of a payload-less control message, the display print of a
transport-level receive error, and the drivers' debug print of a failed
attempt's error. -/
inductive LogEvent where
  | serverResponse : LogEvent
  | invalidMessage : LogEvent
  | controlMessage (r : WsResponse) : LogEvent
  | recvError (e : String) : LogEvent
  | attemptFailed (e : Err) : LogEvent
  deriving Repr

/-- Result of the streaming loop: how it ended (`Ok(())` on stream end or a
payload-less `complete`, or the error thrown by `?`), the final state of the
`response_processor` closure, the payloads passed to `response_processor`
in order, and the log lines printed, in order. -/
structure StreamResult (σ : Type) where
  result : Except Err Unit
  sinkState : σ
  delivered : List GraphQlResponse
  logs : List LogEvent
  deriving Repr

/-- The `while let Some(message) = ws_stream.next().await` loop of
`try_ws_request` (client.rs lines 213-235). The caller's `FnMut`
`response_processor` is modelled as a state-passing function `sink`.
A receive error or a non-text frame is logged and the loop continues; a text
frame is parsed as a `WsResponse` with `?` (so a parse failure aborts the
attempt); a present payload goes to the sink with `?` (a sink error aborts);
an absent payload is logged and ends the loop exactly when
`type == "complete"`. Stream end yields `Ok(())`. -/
def streamLoop (sink : σ → GraphQlResponse → Except Err σ) :
    σ → List WsInbound → StreamResult σ
  | s, [] => ⟨Except.ok (), s, [], []⟩
  | s, msg :: rest =>
    match msg with
    | WsInbound.recvError e =>
      ⟨(streamLoop sink s rest).result, (streamLoop sink s rest).sinkState,
        (streamLoop sink s rest).delivered,
        LogEvent.recvError e :: (streamLoop sink s rest).logs⟩
    | WsInbound.nonText =>
      ⟨(streamLoop sink s rest).result, (streamLoop sink s rest).sinkState,
        (streamLoop sink s rest).delivered,
        LogEvent.invalidMessage :: (streamLoop sink s rest).logs⟩
    | WsInbound.invalidJson =>
      ⟨Except.error (Err.parse "invalid websocket envelope"), s, [], []⟩
    | WsInbound.text j =>
      match deserialize_WsResponse j with
      | Except.error e => ⟨Except.error e, s, [], []⟩
      | Except.ok response =>
        match response.payload with
        | some payload =>
          match sink s payload with
          | Except.error e => ⟨Except.error e, s, [payload], []⟩
          | Except.ok s' =>
            ⟨(streamLoop sink s' rest).result, (streamLoop sink s' rest).sinkState,
              payload :: (streamLoop sink s' rest).delivered,
              (streamLoop sink s' rest).logs⟩
        | none =>
          if response.type = "complete" then
            ⟨Except.ok (), s, [], [LogEvent.controlMessage response]⟩
          else
            ⟨(streamLoop sink s rest).result, (streamLoop sink s rest).sinkState,
              (streamLoop sink s rest).delivered,
              LogEvent.controlMessage response :: (streamLoop sink s rest).logs⟩

/-- Environment of one WebSocket attempt: what the network would yield at
each I/O point of `try_ws_request`, in program order — the result of
`into_client_request` plus `connect_async`, of sending `connection_init`, the
value of the single `ws_stream.next()` awaited as the acknowledgment
(`none` models a closed stream), the result of sending `subscribe`, and the
remaining inbound frames read by the streaming loop. -/
structure WsScript where
  connectResult : Except String Unit
  initSendResult : Except String Unit
  ackMessage : Option (Except String Unit)
  subscribeSendResult : Except String Unit
  inbound : List WsInbound
  deriving Repr

/-- Outcome of one `try_ws_request` call: its `Result`, the final sink state,
the UUID generator counter after the attempt, the `id` carried by the
`subscribe` message if one was built, the payloads delivered to the sink,
and the log lines printed. -/
structure WsOutcome (σ : Type) where
  result : Except Err Unit
  sinkState : σ
  uuidCounter : Nat
  subscribeId : Option String
  delivered : List GraphQlResponse
  logs : List LogEvent
  deriving Repr

/-- `try_ws_request` (client.rs lines 164-238): connect with the
`graphql-transport-ws` headers, print the server's upgrade response, send
`connection_init`, await exactly one message as the acknowledgment
(`.ok_or(WsConnectionInitError)??`: a closed stream is
`WsConnectionInitError`, a received `Err(e)` propagates as `e`), generate a
fresh subscription id with `Uuid::new_v4()` (modelled as `gen n` with the
counter `n` incremented), send `subscribe`, then run the streaming loop. -/
def try_ws_request (gen : Nat → String) (sink : σ → GraphQlResponse → Except Err σ)
    (script : WsScript) (s : σ) (n : Nat) : WsOutcome σ :=
  match script.connectResult with
  | Except.error e => ⟨Except.error (Err.transport e), s, n, none, [], []⟩
  | Except.ok _ =>
    match script.initSendResult with
    | Except.error e =>
      ⟨Except.error (Err.transport e), s, n, none, [], [LogEvent.serverResponse]⟩
    | Except.ok _ =>
      match script.ackMessage with
      | none =>
        ⟨Except.error Err.wsConnectionInitError, s, n, none, [],
          [LogEvent.serverResponse]⟩
      | some (Except.error e) =>
        ⟨Except.error (Err.transport e), s, n, none, [], [LogEvent.serverResponse]⟩
      | some (Except.ok _) =>
        match script.subscribeSendResult with
        | Except.error e =>
          ⟨Except.error (Err.transport e), s, n + 1, some (gen n), [],
            [LogEvent.serverResponse]⟩
        | Except.ok _ =>
          ⟨(streamLoop sink s script.inbound).result,
            (streamLoop sink s script.inbound).sinkState,
            n + 1, some (gen n),
            (streamLoop sink s script.inbound).delivered,
            LogEvent.serverResponse :: (streamLoop sink s script.inbound).logs⟩

/-- State threaded through the `ws_request` reconnect loop: the sink state,
the UUID counter, how many attempts were started, how many
`tokio::time::sleep` calls happened, all log lines so far, and all payloads
delivered so far. -/
structure DriverState (σ : Type) where
  sinkState : σ
  uuidCounter : Nat
  attemptsMade : Nat
  sleeps : Nat
  logs : List LogEvent
  delivered : List GraphQlResponse
  deriving Repr

/-- Result of running the `ws_request` loop with a finite amount of fuel:
either the loop hit `break Ok(())` (`finished`), or the fuel ran out with the
loop still going (`outOfFuel`) — the source loop has no other exit. -/
inductive DriverResult (σ : Type) where
  | finished (r : Except Err Unit) (st : DriverState σ) : DriverResult σ
  | outOfFuel (st : DriverState σ) : DriverResult σ
  deriving Repr

/-- `ws_request` (client.rs lines 240-269): an unconditional `loop` that runs
`try_ws_request`, prints the error if the attempt failed, then — regardless
of the attempt's outcome — sleeps and loops again when
`try_reconnect_duration` is `Some`, and `break Ok(())` when it is `None`.
`scripts k` is the network environment seen by attempt number `k`, and
`fuel` bounds how many iterations are unrolled. -/
def ws_request (gen : Nat → String) (sink : σ → GraphQlResponse → Except Err σ)
    (scripts : Nat → WsScript) (try_reconnect_duration : Option Nat) :
    Nat → DriverState σ → DriverResult σ
  | 0, st => DriverResult.outOfFuel st
  | fuel + 1, st =>
    let o := try_ws_request gen sink (scripts st.attemptsMade) st.sinkState st.uuidCounter
    let st' : DriverState σ :=
      ⟨o.sinkState, o.uuidCounter, st.attemptsMade + 1, st.sleeps,
        st.logs ++ o.logs ++
          (match o.result with
           | Except.error e => [LogEvent.attemptFailed e]
           | Except.ok _ => []),
        st.delivered ++ o.delivered⟩
    match try_reconnect_duration with
    | some _ =>
      ws_request gen sink scripts try_reconnect_duration fuel
        { st' with sleeps := st'.sleeps + 1 }
    | none => DriverResult.finished (Except.ok ()) st'

/-- Environment of one HTTP attempt: the outcome of building the client,
POSTing the body and reading the response — an error, or the JSON value of
the response body (a body that is not JSON at all counts as the error
case). -/
structure HttpScript where
  response : Except String Json
  deriving Repr

/-- Outcome of one `try_http_request` call: its `Result`, the final sink
state, and the responses passed to the sink (at most one). -/
structure HttpOutcome (σ : Type) where
  result : Except Err Unit
  sinkState : σ
  delivered : List GraphQlResponse
  deriving Repr

/-- `try_http_request` (client.rs lines 87-113): build a client, POST the
JSON body, parse the response as a `GraphQlResponse` (`?` on failure), and
pass it exactly once to `response_processor` (`?` on its error). -/
def try_http_request (sink : σ → GraphQlResponse → Except Err σ)
    (script : HttpScript) (s : σ) : HttpOutcome σ :=
  match script.response with
  | Except.error e => ⟨Except.error (Err.transport e), s, []⟩
  | Except.ok body =>
    match deserialize_GraphQlResponse body with
    | Except.error e => ⟨Except.error e, s, []⟩
    | Except.ok response =>
      match sink s response with
      | Except.error e => ⟨Except.error e, s, [response]⟩
      | Except.ok s' => ⟨Except.ok (), s', [response]⟩

/-- State threaded through the `http_request` loop (as `DriverState` but the
HTTP leg has no UUID counter). -/
structure HttpDriverState (σ : Type) where
  sinkState : σ
  attemptsMade : Nat
  sleeps : Nat
  logs : List LogEvent
  delivered : List GraphQlResponse
  deriving Repr

/-- Result of running the `http_request` loop with finite fuel. -/
inductive HttpDriverResult (σ : Type) where
  | finished (r : Except Err Unit) (st : HttpDriverState σ) : HttpDriverResult σ
  | outOfFuel (st : HttpDriverState σ) : HttpDriverResult σ
  deriving Repr

/-- `http_request` (client.rs lines 115-144): the same unconditional retry
`loop` as `ws_request`, around `try_http_request`. -/
def http_request (sink : σ → GraphQlResponse → Except Err σ)
    (scripts : Nat → HttpScript) (try_reconnect_duration : Option Nat) :
    Nat → HttpDriverState σ → HttpDriverResult σ
  | 0, st => HttpDriverResult.outOfFuel st
  | fuel + 1, st =>
    let o := try_http_request sink (scripts st.attemptsMade) st.sinkState
    let st' : HttpDriverState σ :=
      ⟨o.sinkState, st.attemptsMade + 1, st.sleeps,
        st.logs ++
          (match o.result with
           | Except.error e => [LogEvent.attemptFailed e]
           | Except.ok _ => []),
        st.delivered ++ o.delivered⟩
    match try_reconnect_duration with
    | some _ =>
      http_request sink scripts try_reconnect_duration fuel
        { st' with sleeps := st'.sleeps + 1 }
    | none => HttpDriverResult.finished (Except.ok ()) st'

/-- Result of `execute`: which executor ran and what its driver returned, or
the immediate `InvalidServerEndpointScheme` error of the final `else` branch,
under which no executor is invoked at all. -/
inductive ExecuteResult (σ : Type) where
  | http (r : HttpDriverResult σ) : ExecuteResult σ
  | ws (r : DriverResult σ) : ExecuteResult σ
  | schemeError (e : Err) : ExecuteResult σ
  deriving Repr

/-- `execute` (client.rs lines 14-54) after `load_query` succeeded
(query-file loading is an out-of-scope collaborator; the loaded query text
only flows into the scripted request bodies): dispatch on the endpoint
scheme — `http://`/`https://` to `http_request`, else `ws://`/`wss://` to
`ws_request`, else `Err(InvalidServerEndpointScheme)`. Both drivers start
from fresh state. -/
def execute (server_endpoint : String) (gen : Nat → String)
    (sink : σ → GraphQlResponse → Except Err σ)
    (httpScripts : Nat → HttpScript) (wsScripts : Nat → WsScript)
    (try_reconnect_duration : Option Nat) (fuel : Nat) (s : σ) : ExecuteResult σ :=
  if starts_with server_endpoint "http://" || starts_with server_endpoint "https://" then
    ExecuteResult.http
      (http_request sink httpScripts try_reconnect_duration fuel ⟨s, 0, 0, [], []⟩)
  else if starts_with server_endpoint "ws://" || starts_with server_endpoint "wss://" then
    ExecuteResult.ws
      (ws_request gen sink wsScripts try_reconnect_duration fuel ⟨s, 0, 0, 0, [], []⟩)
  else
    ExecuteResult.schemeError Err.invalidServerEndpointScheme

/-! Concrete fixtures used to instantiate the theorems below. -/

/-- A deterministic stand-in for `Uuid::new_v4()`: the id produced by the
`n`-th generator call. Distinct calls produce distinct ids. -/
def uuidOf (n : Nat) : String :=
  String.mk (List.replicate n 'u')

/-- A response processor that accepts every response and counts its
invocations in its state. -/
def countSink (n : Nat) (_ : GraphQlResponse) : Except Err Nat :=
  Except.ok (n + 1)

/-- HTTP attempt whose POST succeeds with body `{"data": "ok"}`. -/
def httpOkScript : HttpScript :=
  ⟨Except.ok (Json.obj [("data", Json.str "ok")])⟩

/-- The `GraphQlResponse` parsed from `httpOkScript`'s body. -/
def okResp : GraphQlResponse :=
  ⟨some (Json.str "ok"), [], []⟩

/-- HTTP attempt whose POST fails at the transport level. -/
def httpFailScript : HttpScript :=
  ⟨Except.error "connection refused"⟩

/-- WebSocket attempt that fails at the connect step. -/
def wsConnectFailScript : WsScript :=
  ⟨Except.error "connection refused", Except.ok (), none, Except.ok (), []⟩

/-- WebSocket attempt where the stream closes before the acknowledgment. -/
def wsAckClosedScript : WsScript :=
  ⟨Except.ok (), Except.ok (), none, Except.ok (), []⟩

/-- WebSocket attempt where a transport error arrives in place of the
acknowledgment. -/
def wsAckTransportErrScript : WsScript :=
  ⟨Except.ok (), Except.ok (), some (Except.error "io"), Except.ok (), []⟩

/-- Wire form of a `next` envelope carrying payload `{"data": "a"}`. -/
def nextJson1 : Json :=
  Json.obj [("type", Json.str "next"), ("id", Json.str "sub1"),
    ("payload", Json.obj [("data", Json.str "a")])]

/-- Wire form of a `next` envelope carrying payload `{"data": "b"}`. -/
def nextJson2 : Json :=
  Json.obj [("type", Json.str "next"), ("id", Json.str "sub1"),
    ("payload", Json.obj [("data", Json.str "b")])]

/-- Wire form of a payload-less `complete` envelope. -/
def completeJson : Json :=
  Json.obj [("type", Json.str "complete"), ("id", Json.str "sub1")]

/-- Wire form of a `complete`-typed envelope that carries a payload. -/
def completeWithPayloadJson : Json :=
  Json.obj [("type", Json.str "complete"), ("id", Json.str "sub1"),
    ("payload", Json.obj [("data", Json.str "c")])]

/-- WebSocket attempt whose server acknowledges, sends two `next` envelopes
with distinct payloads, then a payload-less `complete`. -/
def wsHappyScript : WsScript :=
  ⟨Except.ok (), Except.ok (), some (Except.ok ()), Except.ok (),
    [WsInbound.text nextJson1, WsInbound.text nextJson2, WsInbound.text completeJson]⟩

/-- Distinct generator calls of `uuidOf` produce distinct ids. -/
theorem uuidOf_injective : ∀ a b : Nat, a ≠ b → uuidOf a ≠ uuidOf b := by
  intro a b hab h
  apply hab
  have hlen := congrArg (fun s => s.data.length) h
  simpa [uuidOf] using hlen

/-- An endpoint that starts with `ws://` or `wss://` cannot also start with
`http://` or `https://` (the prefixes differ at their first character), so
`execute`'s first `if` is false on every WebSocket endpoint. -/
theorem ws_prefix_not_http (s : String) :
    (starts_with s "ws://" || starts_with s "wss://") = true →
    (starts_with s "http://" || starts_with s "https://") = false := by
  intro h
  unfold starts_with at h ⊢
  cases hd : s.data with
  | nil => rw [hd] at h; simp [List.isPrefixOf] at h
  | cons c cs =>
    rw [hd] at h
    have hw : "ws://".data = ['w', 's', ':', '/', '/'] := rfl
    have hws : "wss://".data = ['w', 's', 's', ':', '/', '/'] := rfl
    have hh : "http://".data = ['h', 't', 't', 'p', ':', '/', '/'] := rfl
    have hhs : "https://".data = ['h', 't', 't', 'p', 's', ':', '/', '/'] := rfl
    rw [hw, hws] at h
    rw [hh, hhs]
    simp only [List.isPrefixOf] at h
    have hc : c = 'w' := by
      rcases (Bool.or_eq_true _ _).mp h with h1 | h1 <;>
        (rw [Bool.and_eq_true] at h1; exact (eq_of_beq h1.1).symm)
    subst hc
    simp [List.isPrefixOf]

/-- Claim C1, counterexample: with a reconnect interval configured
(`Some(50ms)`) and an executor attempt that completes successfully on every
try (the sink is invoked, no failure is ever logged), the Reconnect Driver
does **not** terminate: within 2 iterations of fuel it has started 2
attempts and slept twice, and it is still looping. -/
theorem http_request_loops_after_success_cex :
    http_request countSink (fun _ => httpOkScript) (some 50) 2 ⟨0, 0, 0, [], []⟩ =
      HttpDriverResult.outOfFuel ⟨2, 2, 2, [], [okResp, okResp]⟩ := rfl

/-- Claim C1, amended: the drivers' loop control never looks at the
attempt's outcome. With no reconnect interval, one attempt runs and the
operation returns success; with an interval configured, the driver sleeps
and retries unconditionally — even a successful attempt never terminates the
loop (for every amount of fuel it is still looping). This holds for both the
HTTP and the WebSocket driver. -/
theorem reconnect_driver_termination {σ : Type}
    (sink : σ → GraphQlResponse → Except Err σ) (gen : Nat → String)
    (hscripts : Nat → HttpScript) (wscripts : Nat → WsScript) :
    (∀ (st : HttpDriverState σ) (fuel : Nat),
      ∃ st', http_request sink hscripts none (fuel + 1) st =
          HttpDriverResult.finished (Except.ok ()) st' ∧
        st'.attemptsMade = st.attemptsMade + 1 ∧ st'.sleeps = st.sleeps) ∧
    (∀ (d : Nat) (fuel : Nat) (st : HttpDriverState σ),
      ∃ st', http_request sink hscripts (some d) fuel st =
        HttpDriverResult.outOfFuel st') ∧
    (∀ (st : DriverState σ) (fuel : Nat),
      ∃ st', ws_request gen sink wscripts none (fuel + 1) st =
          DriverResult.finished (Except.ok ()) st' ∧
        st'.attemptsMade = st.attemptsMade + 1 ∧ st'.sleeps = st.sleeps) ∧
    (∀ (d : Nat) (fuel : Nat) (st : DriverState σ),
      ∃ st', ws_request gen sink wscripts (some d) fuel st =
        DriverResult.outOfFuel st') := by
  refine ⟨fun st fuel => ⟨_, rfl, rfl, rfl⟩, fun d fuel => ?_,
    fun st fuel => ⟨_, rfl, rfl, rfl⟩, fun d fuel => ?_⟩
  · induction fuel with
    | zero => exact fun st => ⟨st, rfl⟩
    | succ n ih => exact fun st => ih _
  · induction fuel with
    | zero => exact fun st => ⟨st, rfl⟩
    | succ n ih => exact fun st => ih _

/-- Claim C2: the Transport Selector in `execute` routes `http://`/`https://`
endpoints to the HTTP executor's driver, `ws://`/`wss://` endpoints to the
WebSocket executor's driver, and on any other endpoint returns
`InvalidServerEndpointScheme` immediately — no executor and no retry loop is
involved in that case (no driver result exists under `schemeError`). -/
theorem execute_dispatch_spec {σ : Type} (e : String) (gen : Nat → String)
    (sink : σ → GraphQlResponse → Except Err σ) (hscripts : Nat → HttpScript)
    (wscripts : Nat → WsScript) (d : Option Nat) (fuel : Nat) (s : σ) :
    ((starts_with e "http://" || starts_with e "https://") = true →
      execute e gen sink hscripts wscripts d fuel s =
        ExecuteResult.http (http_request sink hscripts d fuel ⟨s, 0, 0, [], []⟩)) ∧
    ((starts_with e "ws://" || starts_with e "wss://") = true →
      execute e gen sink hscripts wscripts d fuel s =
        ExecuteResult.ws (ws_request gen sink wscripts d fuel ⟨s, 0, 0, 0, [], []⟩)) ∧
    ((starts_with e "http://" || starts_with e "https://") = false →
      (starts_with e "ws://" || starts_with e "wss://") = false →
      execute e gen sink hscripts wscripts d fuel s =
        ExecuteResult.schemeError Err.invalidServerEndpointScheme) := by
  refine ⟨fun h => ?_, fun h => ?_, fun h1 h2 => ?_⟩
  · simp [execute, h]
  · have hnh := ws_prefix_not_http e h
    simp [execute, hnh, h]
  · simp [execute, h1, h2]

/-- Claim C2, witness: an `http://` endpoint dispatches to the HTTP driver, a
`wss://` endpoint to the WebSocket driver, and an `ftp://` endpoint yields
`InvalidServerEndpointScheme` with no executor invoked. -/
theorem execute_dispatch_spec_witness :
    execute "http://h" uuidOf countSink (fun _ => httpFailScript)
        (fun _ => wsConnectFailScript) none 1 0 =
      ExecuteResult.http (http_request countSink (fun _ => httpFailScript) none 1
        ⟨0, 0, 0, [], []⟩) ∧
    execute "wss://h" uuidOf countSink (fun _ => httpFailScript)
        (fun _ => wsConnectFailScript) none 1 0 =
      ExecuteResult.ws (ws_request uuidOf countSink (fun _ => wsConnectFailScript) none 1
        ⟨0, 0, 0, 0, [], []⟩) ∧
    execute "ftp://h" uuidOf countSink (fun _ => httpFailScript)
        (fun _ => wsConnectFailScript) none 1 0 =
      ExecuteResult.schemeError Err.invalidServerEndpointScheme :=
  ⟨(execute_dispatch_spec "http://h" uuidOf countSink (fun _ => httpFailScript)
      (fun _ => wsConnectFailScript) none 1 0).1 (by decide),
    (execute_dispatch_spec "wss://h" uuidOf countSink (fun _ => httpFailScript)
      (fun _ => wsConnectFailScript) none 1 0).2.1 (by decide),
    (execute_dispatch_spec "ftp://h" uuidOf countSink (fun _ => httpFailScript)
      (fun _ => wsConnectFailScript) none 1 0).2.2 (by decide) (by decide)⟩

/-- Claim C3, counterexample: a text frame that is valid JSON but does not
parse as a WebSocket envelope (here the JSON number `1`) is **not** skipped:
the `?` on `serde_json::from_str::<WsResponse>` aborts the whole attempt, and
the valid `next` frame right behind it is never delivered (the sink is never
invoked). -/
theorem streamLoop_parse_failure_aborts_cex :
    streamLoop countSink 0 [WsInbound.text (Json.num 1), WsInbound.text nextJson1] =
      ⟨Except.error (Err.parse "invalid type: expected struct WsResponse"), 0, [], []⟩ :=
  rfl

/-- Claim C3, amended: in the streaming loop, a frame that cannot be decoded
as text is logged and skipped (the loop continues), and so is a
transport-level receive error; but a text frame that fails to parse as a
WebSocket envelope (invalid JSON, or JSON of the wrong shape) aborts the
attempt with the parse error. -/
theorem streamLoop_decode_failures {σ : Type}
    (sink : σ → GraphQlResponse → Except Err σ) (s : σ) (rest : List WsInbound)
    (m : String) (j : Json) (e : Err)
    (h : deserialize_WsResponse j = Except.error e) :
    streamLoop sink s (WsInbound.nonText :: rest) =
      ⟨(streamLoop sink s rest).result, (streamLoop sink s rest).sinkState,
        (streamLoop sink s rest).delivered,
        LogEvent.invalidMessage :: (streamLoop sink s rest).logs⟩ ∧
    streamLoop sink s (WsInbound.recvError m :: rest) =
      ⟨(streamLoop sink s rest).result, (streamLoop sink s rest).sinkState,
        (streamLoop sink s rest).delivered,
        LogEvent.recvError m :: (streamLoop sink s rest).logs⟩ ∧
    streamLoop sink s (WsInbound.invalidJson :: rest) =
      ⟨Except.error (Err.parse "invalid websocket envelope"), s, [], []⟩ ∧
    streamLoop sink s (WsInbound.text j :: rest) = ⟨Except.error e, s, [], []⟩ := by
  refine ⟨rfl, rfl, rfl, ?_⟩
  simp [streamLoop, h]

/-- Claim C3, witness: with an empty remainder of the stream, the four
behaviours at concrete inputs — in particular a JSON-number frame aborts the
attempt with a parse error while non-text frames are merely logged. -/
theorem streamLoop_decode_failures_witness :
    streamLoop countSink 0 [WsInbound.nonText] =
      ⟨Except.ok (), 0, [], [LogEvent.invalidMessage]⟩ ∧
    streamLoop countSink 0 [WsInbound.recvError "io"] =
      ⟨Except.ok (), 0, [], [LogEvent.recvError "io"]⟩ ∧
    streamLoop countSink 0 [WsInbound.invalidJson] =
      ⟨Except.error (Err.parse "invalid websocket envelope"), 0, [], []⟩ ∧
    streamLoop countSink 0 [WsInbound.text (Json.num 1)] =
      ⟨Except.error (Err.parse "invalid type: expected struct WsResponse"), 0, [], []⟩ := by
  have h := streamLoop_decode_failures countSink 0 [] "io" (Json.num 1)
    (Err.parse "invalid type: expected struct WsResponse") rfl
  exact ⟨h.1.trans rfl, h.2.1.trans rfl, h.2.2.1, h.2.2.2⟩

/-- Claim C4: with `try_reconnect_duration = None`, a single failing attempt
makes the driver log that failure exactly once (`attemptFailed e` is the only
driver-level log line), perform zero sleeps, and return overall success —
for both the HTTP and the WebSocket driver. -/
theorem reconnect_none_logs_failure_once {σ : Type}
    (sink : σ → GraphQlResponse → Except Err σ) (gen : Nat → String)
    (hscripts : Nat → HttpScript) (wscripts : Nat → WsScript) (s : σ)
    (e e' : Err) (fuel : Nat)
    (hh : (try_http_request sink (hscripts 0) s).result = Except.error e)
    (hw : (try_ws_request gen sink (wscripts 0) s 0).result = Except.error e') :
    http_request sink hscripts none (fuel + 1) ⟨s, 0, 0, [], []⟩ =
      HttpDriverResult.finished (Except.ok ())
        ⟨(try_http_request sink (hscripts 0) s).sinkState, 1, 0,
          [LogEvent.attemptFailed e],
          (try_http_request sink (hscripts 0) s).delivered⟩ ∧
    ws_request gen sink wscripts none (fuel + 1) ⟨s, 0, 0, 0, [], []⟩ =
      DriverResult.finished (Except.ok ())
        ⟨(try_ws_request gen sink (wscripts 0) s 0).sinkState,
          (try_ws_request gen sink (wscripts 0) s 0).uuidCounter, 1, 0,
          (try_ws_request gen sink (wscripts 0) s 0).logs ++ [LogEvent.attemptFailed e'],
          (try_ws_request gen sink (wscripts 0) s 0).delivered⟩ := by
  constructor
  · simp [http_request, hh]
  · simp [ws_request, hw]

/-- Claim C4, witness: one failing HTTP attempt and one failing WebSocket
attempt under `None`: each driver returns success with exactly one
`attemptFailed` log line and an unchanged (zero) sleep count. -/
theorem reconnect_none_logs_failure_once_witness :
    http_request countSink (fun _ => httpFailScript) none 1 ⟨0, 0, 0, [], []⟩ =
      HttpDriverResult.finished (Except.ok ())
        ⟨0, 1, 0, [LogEvent.attemptFailed (Err.transport "connection refused")], []⟩ ∧
    ws_request uuidOf countSink (fun _ => wsConnectFailScript) none 1 ⟨0, 0, 0, 0, [], []⟩ =
      DriverResult.finished (Except.ok ())
        ⟨0, 0, 1, 0, [LogEvent.attemptFailed (Err.transport "connection refused")], []⟩ := by
  have h := reconnect_none_logs_failure_once countSink uuidOf (fun _ => httpFailScript)
    (fun _ => wsConnectFailScript) 0 (Err.transport "connection refused")
    (Err.transport "connection refused") 0 rfl rfl
  exact ⟨h.1.trans rfl, h.2.trans rfl⟩

/-- Claim C5, counterexample: reconnect policy `None` and a WebSocket attempt
that fails at the connect step (it never even establishes): the overall
operation still returns `Ok(())` — success — with the failure only logged;
it does not signal failure to the caller. -/
theorem ws_none_connect_failure_returns_ok_cex :
    ws_request uuidOf countSink (fun _ => wsConnectFailScript) none 1 ⟨0, 0, 0, 0, [], []⟩ =
      DriverResult.finished (Except.ok ())
        ⟨0, 0, 1, 0, [LogEvent.attemptFailed (Err.transport "connection refused")], []⟩ :=
  rfl

/-- Claim C5, amended: when the reconnect policy is `None` and the single
WebSocket attempt fails before establishing (the connect step itself fails),
the driver logs the failure and the overall operation returns success —
failure is never surfaced through the driver; only the invalid-scheme check
(and query loading) can fail the operation. -/
theorem ws_none_establish_failure_swallowed {σ : Type} (gen : Nat → String)
    (sink : σ → GraphQlResponse → Except Err σ) (wscripts : Nat → WsScript)
    (s : σ) (fuel : Nat) (ce : String)
    (h : (wscripts 0).connectResult = Except.error ce) :
    ws_request gen sink wscripts none (fuel + 1) ⟨s, 0, 0, 0, [], []⟩ =
      DriverResult.finished (Except.ok ())
        ⟨s, 0, 1, 0, [LogEvent.attemptFailed (Err.transport ce)], []⟩ := by
  simp [ws_request, try_ws_request, h]

/-- Claim C5, witness: a connect-step failure under policy `None`, starting
from sink state 7, returns overall success with the failure logged. -/
theorem ws_none_establish_failure_swallowed_witness :
    ws_request uuidOf countSink (fun _ => wsConnectFailScript) none 2 ⟨7, 0, 0, 0, [], []⟩ =
      DriverResult.finished (Except.ok ())
        ⟨7, 0, 1, 0, [LogEvent.attemptFailed (Err.transport "connection refused")], []⟩ :=
  ws_none_establish_failure_swallowed uuidOf countSink (fun _ => wsConnectFailScript)
    7 1 "connection refused" rfl

/-- Claim C6: the end-to-end WebSocket scenario — the server acknowledges,
sends two `next` envelopes with distinct payloads, then a payload-less
`complete`. The sink is invoked exactly twice (its counter ends at 2), with
the two payloads in arrival order, and the attempt ends with `Ok(())`. -/
theorem ws_happy_path_two_payloads :
    (try_ws_request uuidOf countSink wsHappyScript 0 0).result = Except.ok () ∧
    (try_ws_request uuidOf countSink wsHappyScript 0 0).delivered =
      [⟨some (Json.str "a"), [], []⟩, ⟨some (Json.str "b"), [], []⟩] ∧
    (try_ws_request uuidOf countSink wsHappyScript 0 0).sinkState = 2 ∧
    (⟨some (Json.str "a"), [], []⟩ : GraphQlResponse) ≠ ⟨some (Json.str "b"), [], []⟩ := by
  refine ⟨rfl, rfl, rfl, ?_⟩
  intro h
  injection h with h1 h2 h3
  injection h1 with h4
  injection h4 with h5
  exact absurd h5 (by decide)

/-- Claim C7, counterexample: when a transport error (rather than a stream
closure) arrives in place of the acknowledgment, the attempt fails with that
transport error, not with `WsConnectionInitError` — the second `?` in
`ws_stream.next().await.ok_or(WsConnectionInitError)??` propagates the
received error as-is. -/
theorem ws_ack_transport_error_not_init_error_cex :
    (try_ws_request uuidOf countSink wsAckTransportErrScript 0 0).result =
        Except.error (Err.transport "io") ∧
    Err.transport "io" ≠ Err.wsConnectionInitError :=
  ⟨rfl, by decide⟩

/-- Claim C7, amended: after sending `connection_init` the executor awaits
exactly one inbound message as the acknowledgment; if the stream closes
before one arrives the attempt fails with `WsConnectionInitError`, while a
transport error arriving there fails the attempt with that transport
error. -/
theorem ws_ack_wait_errors {σ : Type} (gen : Nat → String)
    (sink : σ → GraphQlResponse → Except Err σ) (script : WsScript) (s : σ) (n : Nat)
    (h1 : script.connectResult = Except.ok ())
    (h2 : script.initSendResult = Except.ok ()) :
    (script.ackMessage = none →
      (try_ws_request gen sink script s n).result = Except.error Err.wsConnectionInitError) ∧
    (∀ e, script.ackMessage = some (Except.error e) →
      (try_ws_request gen sink script s n).result = Except.error (Err.transport e)) := by
  constructor
  · intro h
    simp [try_ws_request, h1, h2, h]
  · intro e h
    simp [try_ws_request, h1, h2, h]

/-- Claim C7, witness: a closed stream before the acknowledgment yields
`WsConnectionInitError`; a transport error there yields that transport
error. -/
theorem ws_ack_wait_errors_witness :
    (try_ws_request uuidOf countSink wsAckClosedScript 0 0).result =
        Except.error Err.wsConnectionInitError ∧
    (try_ws_request uuidOf countSink wsAckTransportErrScript 0 0).result =
        Except.error (Err.transport "io") :=
  ⟨(ws_ack_wait_errors uuidOf countSink wsAckClosedScript 0 0 rfl rfl).1 rfl,
    (ws_ack_wait_errors uuidOf countSink wsAckTransportErrScript 0 0 rfl rfl).2 "io" rfl⟩

/-- A `subscribe` message is built in `try_ws_request` exactly when the
attempt got past the acknowledgment, and in that case its id is the current
generator call `gen n` and the generator counter advances to `n + 1` — one
fresh generator call per attempt. -/
theorem try_ws_request_subscribeId {σ : Type} (gen : Nat → String)
    (sink : σ → GraphQlResponse → Except Err σ) (script : WsScript) (s : σ)
    (n : Nat) (i : String)
    (h : (try_ws_request gen sink script s n).subscribeId = some i) :
    i = gen n ∧ (try_ws_request gen sink script s n).uuidCounter = n + 1 := by
  obtain ⟨cr, ir, am, sr, inb⟩ := script
  cases cr with
  | error e => simp [try_ws_request] at h
  | ok u =>
    cases ir with
    | error e => simp [try_ws_request] at h
    | ok u2 =>
      cases am with
      | none => simp [try_ws_request] at h
      | some a =>
        cases a with
        | error e => simp [try_ws_request] at h
        | ok u3 =>
          cases sr with
          | error e =>
            simp only [try_ws_request] at h ⊢
            exact ⟨(Option.some.inj h).symm, trivial⟩
          | ok u4 =>
            simp only [try_ws_request] at h ⊢
            exact ⟨(Option.some.inj h).symm, trivial⟩

/-- Claim C9: across two consecutive WebSocket attempts of the same
operation (the second starting from the first's sink state and generator
counter, exactly as the `ws_request` loop threads them), each `subscribe`
message's id comes from a fresh generator call, so the two ids are distinct
whenever the generator returns distinct values on distinct calls. -/
theorem ws_subscription_ids_fresh {σ : Type} (gen : Nat → String)
    (sink : σ → GraphQlResponse → Except Err σ) (script1 script2 : WsScript)
    (s : σ) (n : Nat) (i1 i2 : String)
    (h1 : (try_ws_request gen sink script1 s n).subscribeId = some i1)
    (h2 : (try_ws_request gen sink script2 (try_ws_request gen sink script1 s n).sinkState
            (try_ws_request gen sink script1 s n).uuidCounter).subscribeId = some i2)
    (hgen : ∀ a b : Nat, a ≠ b → gen a ≠ gen b) :
    i1 ≠ i2 := by
  obtain ⟨e1, hc1⟩ := try_ws_request_subscribeId gen sink script1 s n i1 h1
  obtain ⟨e2, _⟩ := try_ws_request_subscribeId gen sink script2 _ _ i2 h2
  rw [hc1] at e2
  rw [e1, e2]
  exact hgen n (n + 1) (by omega)

/-- Claim C9, witness: two consecutive successful attempts with the `uuidOf`
generator carry the ids of generator calls 0 and 1, which differ. -/
theorem ws_subscription_ids_fresh_witness : uuidOf 0 ≠ uuidOf 1 :=
  ws_subscription_ids_fresh uuidOf countSink wsHappyScript wsHappyScript 0 0
    (uuidOf 0) (uuidOf 1) rfl rfl uuidOf_injective

/-- Claim C10: a successfully parsed envelope whose payload is present is
delivered to the sink without the `type` field being consulted (the
delivery branch is the same whatever `type` is — including `"complete"`),
and the loop then continues with the rest of the stream; an envelope without
payload is only logged, ending the loop exactly when its type is
`"complete"`. -/
theorem streamLoop_payload_delivery {σ : Type}
    (sink : σ → GraphQlResponse → Except Err σ) (s : σ) (j : Json)
    (env : WsResponse) (rest : List WsInbound) (p : GraphQlResponse)
    (h : deserialize_WsResponse j = Except.ok env) :
    (env.payload = some p →
      streamLoop sink s (WsInbound.text j :: rest) =
        (match sink s p with
         | Except.error e => ⟨Except.error e, s, [p], []⟩
         | Except.ok s' =>
           ⟨(streamLoop sink s' rest).result, (streamLoop sink s' rest).sinkState,
             p :: (streamLoop sink s' rest).delivered,
             (streamLoop sink s' rest).logs⟩)) ∧
    (env.payload = none → env.type = "complete" →
      streamLoop sink s (WsInbound.text j :: rest) =
        ⟨Except.ok (), s, [], [LogEvent.controlMessage env]⟩) ∧
    (env.payload = none → env.type ≠ "complete" →
      streamLoop sink s (WsInbound.text j :: rest) =
        ⟨(streamLoop sink s rest).result, (streamLoop sink s rest).sinkState,
          (streamLoop sink s rest).delivered,
          LogEvent.controlMessage env :: (streamLoop sink s rest).logs⟩) := by
  refine ⟨fun hp => ?_, fun hp ht => ?_, fun hp ht => ?_⟩
  · simp [streamLoop, h, hp]
  · simp [streamLoop, h, hp, ht]
  · simp [streamLoop, h, hp, ht]

/-- Claim C10, witness: a `complete`-typed envelope that carries a payload is
delivered to the sink and does not end the loop — the following payload-less
`complete` does. -/
theorem streamLoop_payload_delivery_witness :
    streamLoop countSink 0 [WsInbound.text completeWithPayloadJson, WsInbound.text completeJson] =
      ⟨Except.ok (), 1, [⟨some (Json.str "c"), [], []⟩],
        [LogEvent.controlMessage ⟨"complete", "sub1", none⟩]⟩ := by
  have h := (streamLoop_payload_delivery countSink 0 completeWithPayloadJson
    ⟨"complete", "sub1", some ⟨some (Json.str "c"), [], []⟩⟩
    [WsInbound.text completeJson] ⟨some (Json.str "c"), [], []⟩ rfl).1 rfl
  exact h.trans rfl

/-- Helper for the deserializer: if an object's remaining fields contain
neither an `errors` nor an `extensions` key and those two slots are still
unset, a successful run of the field loop produces empty `errors` and
`extensions` collections (the serde defaults). -/
theorem graphQlResponse_fields_absent_keys :
    ∀ (fields : List (String × Json)) (d : Option (Option Json)) (r : GraphQlResponse),
      "errors" ∉ fields.map Prod.fst →
      "extensions" ∉ fields.map Prod.fst →
      graphQlResponse_fields fields d none none = Except.ok r →
      r.errors = [] ∧ r.extensions = [] := by
  intro fields
  induction fields with
  | nil =>
    intro d r _ _ h
    simp only [graphQlResponse_fields] at h
    injection h with h
    subst h
    exact ⟨rfl, rfl⟩
  | cons kv rest ih =>
    intro d r hne hnx h
    obtain ⟨k, v⟩ := kv
    simp only [List.map_cons, List.mem_cons, not_or] at hne hnx
    by_cases hk : k = "data"
    · subst hk
      cases d with
      | some x => simp [graphQlResponse_fields] at h
      | none =>
        simp only [graphQlResponse_fields, if_pos] at h
        exact ih _ r hne.2 hnx.2 h
    · by_cases hk2 : k = "extensions"
      · exact absurd hk2.symm hnx.1
      · by_cases hk3 : k = "errors"
        · exact absurd hk3.symm hne.1
        · simp only [graphQlResponse_fields, if_neg hk, if_neg hk2, if_neg hk3] at h
          exact ih d r hne.2 hnx.2 h

/-- Claim C8, counterexample: serialize-then-deserialize is **not** the
identity on every value with empty `errors`/`extensions`: a response whose
`data` is `Some(Value::Null)` serializes to `{"data": null}`, which
deserializes back with `data: None`. -/
theorem graphql_response_roundtrip_cex :
    deserialize_GraphQlResponse (serialize_GraphQlResponse ⟨some Json.null, [], []⟩) =
        Except.ok ⟨none, [], []⟩ ∧
    (⟨none, [], []⟩ : GraphQlResponse) ≠ ⟨some Json.null, [], []⟩ := by
  refine ⟨rfl, ?_⟩
  intro h
  injection h with h1 h2 h3
  exact Option.noConfusion h1

/-- Claim C8, amended: serializing a `GraphQlResponse` with empty `errors`
and `extensions` produces no `errors`/`extensions` key; deserializing any
JSON in which these keys are absent yields empty collections for both; and
serialize-then-deserialize is the identity on values with empty collections
provided `data` is not `Some(Value::Null)` (that one value round-trips to
`data: None`). -/
theorem graphql_response_serde_contract :
    (∀ r : GraphQlResponse, r.extensions = [] → r.errors = [] →
      "errors" ∉ jsonKeys (serialize_GraphQlResponse r) ∧
      "extensions" ∉ jsonKeys (serialize_GraphQlResponse r)) ∧
    (∀ (j : Json) (r : GraphQlResponse),
      deserialize_GraphQlResponse j = Except.ok r →
      "errors" ∉ jsonKeys j → "extensions" ∉ jsonKeys j →
      r.errors = [] ∧ r.extensions = []) ∧
    (∀ r : GraphQlResponse, r.extensions = [] → r.errors = [] →
      r.data ≠ some Json.null →
      deserialize_GraphQlResponse (serialize_GraphQlResponse r) = Except.ok r) := by
  refine ⟨fun r hx he => ?_, fun j r h hne hnx => ?_, fun r hx he hd => ?_⟩
  · simp [serialize_GraphQlResponse, hx, he, jsonKeys]
  · cases j with
    | null => simp [deserialize_GraphQlResponse] at h
    | bool b => simp [deserialize_GraphQlResponse] at h
    | num n => simp [deserialize_GraphQlResponse] at h
    | str s => simp [deserialize_GraphQlResponse] at h
    | arr xs => simp [deserialize_GraphQlResponse] at h
    | obj fields =>
      simp only [jsonKeys] at hne hnx
      exact graphQlResponse_fields_absent_keys fields none r hne hnx
        (by simpa [deserialize_GraphQlResponse] using h)
  · obtain ⟨d, ext, errs⟩ := r
    dsimp only at hx he hd
    subst hx
    subst he
    cases d with
    | none => rfl
    | some v =>
      cases v with
      | null => exact absurd rfl hd
      | bool b => rfl
      | num n => rfl
      | str s => rfl
      | arr xs => rfl
      | obj fs => rfl

/-- Claim C8, witness: at concrete values — serializing
`⟨some "x", ∅, ∅⟩` yields no `errors`/`extensions` key, deserializing
`{"data": null}` (no such keys) yields empty collections, and the round trip
is the identity on `⟨some "x", ∅, ∅⟩`. -/
theorem graphql_response_serde_contract_witness :
    ("errors" ∉ jsonKeys (serialize_GraphQlResponse ⟨some (Json.str "x"), [], []⟩) ∧
      "extensions" ∉ jsonKeys (serialize_GraphQlResponse ⟨some (Json.str "x"), [], []⟩)) ∧
    ((⟨none, [], []⟩ : GraphQlResponse).errors = [] ∧
      (⟨none, [], []⟩ : GraphQlResponse).extensions = []) ∧
    deserialize_GraphQlResponse (serialize_GraphQlResponse ⟨some (Json.str "x"), [], []⟩) =
      Except.ok ⟨some (Json.str "x"), [], []⟩ := by
  refine ⟨graphql_response_serde_contract.1 _ rfl rfl, ?_,
    graphql_response_serde_contract.2.2 _ rfl rfl (by simp)⟩
  exact graphql_response_serde_contract.2.1 (Json.obj [("data", Json.null)])
    ⟨none, [], []⟩ rfl (by decide) (by decide)

end GraphqlCliTools
